import Mathlib

/-!
Verification of the regime / signal / planning core of the
crypto-quant-trading repository.

The Python modules `src/data/analyzer.py`, `src/strategy/regime.py`,
`src/strategy/signals.py` and `src/strategy/planner.py` are shallowly
embedded below.  Numeric values (Python floats) are modelled as rationals;
pandas series are modelled as lists (a column with possibly-missing cells
is a `List (Option ℚ)`, and `dropna` is `List.filterMap id`); fallible
lookups are `Option`.
-/

namespace Quant

/-- The `Action` enum from `src/data/models.py`. -/
inductive Action where
  | STOP_ALL
  | NO_NEW_ENTRY
  | OK
deriving DecidableEq, Repr

/-- The `MarketRegime` enum from `src/data/models.py`. -/
inductive MarketRegime where
  | TREND
  | MIXED
  | RANGE
  | UNKNOWN
deriving DecidableEq, Repr

/-- The `VolState` enum from `src/data/models.py`. -/
inductive VolState where
  | LOW
  | NORMAL
  | HIGH
  | UNKNOWN
deriving DecidableEq, Repr

/-- The `Slope` enum from `src/data/models.py`. -/
inductive Slope where
  | UP
  | DOWN
  | FLAT
  | UNKNOWN
deriving DecidableEq, Repr

/-- The `Side` enum from `src/data/models.py`. -/
inductive Side where
  | LONG
  | SHORT
  | NONE
deriving DecidableEq, Repr

/-- The `SlopeState` dataclass from `src/data/models.py` (numeric payloads of the
slope snapshot; only `state` is read by `decide_regime`). -/
structure SlopeState where
  state : Slope := Slope.UNKNOWN
  cur : Option ℚ := none
  eps : Option ℚ := none
deriving DecidableEq, Repr

/-- The `TimingState` dataclass from `src/data/models.py`. -/
structure TimingState where
  adx_slope : SlopeState := {}
  bbw_slope : SlopeState := {}
deriving DecidableEq, Repr

/-- The `OrderBookInfo` dataclass from `src/data/models.py` (numeric fields
only; the symbol/timestamp fields are irrelevant to the decision logic). -/
structure OrderBookInfo where
  best_bid : ℚ
  best_ask : ℚ
  mid_price : ℚ
  spread_bps : ℚ
  bid_depth_value : ℚ
  ask_depth_value : ℚ
  imbalance : ℚ
deriving DecidableEq, Repr

/-- The `Decision` dataclass from `src/data/models.py`.  The debug snapshot
fields (`adx`, `vol_state`, `order_book`) are carried as in the source. -/
structure Decision where
  action : Action
  regime : MarketRegime
  allow_trend : Bool
  allow_mean : Bool
  strict_entry : Bool := false
  allow_new_entry : Bool := true
  allow_manage : Bool := true
  allow_flip : Bool := false
  risk_scale : ℚ := 1
  cooldown_scale : ℚ := 1
  reasons : List String := []
  adx : Option ℚ := none
  vol_state : VolState := VolState.UNKNOWN
  order_book : Option OrderBookInfo := none
deriving DecidableEq, Repr

/-- A pandas column: each cell either holds a value or is missing (NaN). -/
abbrev Col := List (Option ℚ)

/-- Pandas `Series.dropna`. -/
def dropna (c : Col) : List ℚ := c.filterMap id

/-- Python `series.iloc[-1]` (last element) as an `Option`. -/
def ilocLast (l : List ℚ) : Option ℚ := l.getLast?

/-- Python `series.iloc[-n:]` — the last `n` elements. -/
def takeLast {α : Type} (l : List α) (n : ℕ) : List α := l.drop (l.length - n)

/-!  ## `src/data/analyzer.py` — `classify_trend_range`  -/

/-- The `classify_trend_range` from `src/data/analyzer.py`.

The input dataframe is represented by its `adx_14` column; `none` covers
both `df is None` and the column being absent.  Hysteresis thresholds are
exactly those of the source (exit TREND below 23, exit RANGE above 19,
enter TREND at ≥ 26, enter RANGE at ≤ 17). -/
def classify_trend_range (df : Option Col) (prev : MarketRegime) :
    MarketRegime × Option ℚ :=
  match df with
  | none => (MarketRegime.UNKNOWN, none)
  | some col =>
    let s := dropna col
    if s.length < 50 then (MarketRegime.UNKNOWN, none)
    else
      match ilocLast s with
      | none => (MarketRegime.UNKNOWN, none)
      | some adx =>
        if prev = MarketRegime.TREND then
          if adx < 23 then (MarketRegime.MIXED, some adx)
          else (MarketRegime.TREND, some adx)
        else if prev = MarketRegime.RANGE then
          if adx > 19 then (MarketRegime.MIXED, some adx)
          else (MarketRegime.RANGE, some adx)
        else
          if adx ≥ 26 then (MarketRegime.TREND, some adx)
          else if adx ≤ 17 then (MarketRegime.RANGE, some adx)
          else (MarketRegime.MIXED, some adx)

/-!  ## `src/strategy/regime.py` — volatility classifier  -/

/-- Insert into a sorted list (ascending). -/
def insertSorted (x : ℚ) : List ℚ → List ℚ
  | [] => [x]
  | y :: ys => if x ≤ y then x :: y :: ys else y :: insertSorted x ys

/-- Ascending sort (the order pandas ranks values in for quantiles). -/
def sortQ : List ℚ → List ℚ
  | [] => []
  | x :: xs => insertSorted x (sortQ xs)

/-- Pandas `Series.quantile(q)` with pandas' default linear interpolation:
on the sorted sample `v₀ ≤ … ≤ v_{n-1}`, position `q·(n-1)` is split into
integer part `i` and fraction `f`, giving `vᵢ + f·(vᵢ₊₁ - vᵢ)`. -/
def quantile (l : List ℚ) (q : ℚ) : ℚ :=
  let s := sortQ l
  match s with
  | [] => 0
  | v :: _ =>
    let pos : ℚ := q * ((s.length : ℚ) - 1)
    let i : ℕ := (Int.floor pos).toNat
    let frac : ℚ := pos - (i : ℚ)
    let lo := s.getD i v
    let hi := s.getD (i + 1) lo
    lo + frac * (hi - lo)

/-- The `_q_state` from `src/strategy/regime.py`: classify a current value
against the 20th/80th percentile. -/
def q_state (cur p20 p80 : ℚ) : VolState :=
  if cur ≤ p20 then VolState.LOW
  else if cur ≥ p80 then VolState.HIGH
  else VolState.NORMAL

/-- One "volatility view" inside `classify_vol_state`: restrict the
(dropna'd) series to its last 200 samples, then classify the latest value
against the window's 20th/80th percentiles.  `xs` is assumed non-empty by
the caller (guarded by the ≥ 200 length check). -/
def vol_view_state (xs : List ℚ) : VolState :=
  let w := takeLast xs 200
  let cur := (ilocLast w).getD 0
  q_state cur (quantile w (1/5)) (quantile w (4/5))

/-- The debug payload of `classify_vol_state` (the `dbg` dict; only the
fields the spec talks about are kept: confidence and the two per-view
states). -/
structure VolDebug where
  confidence : String
  n_state : VolState
  b_state : VolState
deriving DecidableEq, Repr

/-- The `classify_vol_state` from `src/strategy/regime.py`.

The input dataframe is represented by its `natr_14` and `bb_width`
columns; `none` covers `df is None` and missing columns.  Each view is
classified independently over its last 200 non-missing samples; agreement
yields that state with "high" confidence, disagreement collapses to
NORMAL with "low" confidence. -/
def classify_vol_state (df : Option (Col × Col)) : VolState × Option VolDebug :=
  match df with
  | none => (VolState.UNKNOWN, none)
  | some (natrCol, bbwCol) =>
    let natr := dropna natrCol
    let bbw := dropna bbwCol
    if natr.length < 200 ∨ bbw.length < 200 then (VolState.UNKNOWN, none)
    else
      let n_state := vol_view_state natr
      let b_state := vol_view_state bbw
      if n_state = b_state then
        (n_state, some ⟨"high", n_state, b_state⟩)
      else
        (VolState.NORMAL, some ⟨"low", n_state, b_state⟩)

/-!  ## `src/strategy/regime.py` — `decide_regime`  -/

/-- Step 1 of `decide_regime`: the accumulated `hard_reasons` list
(regime/volatility unknown, spread too wide, ADX missing).  Reason
strings keep the fixed part of the source's messages (interpolated
numbers are dropped). -/
def hard_stop_reasons (base : MarketRegime) (adx : Option ℚ)
    (vol_state : VolState) (spread_bps : Option ℚ) (max_spread_bps : ℚ) :
    List String :=
  (if base = MarketRegime.UNKNOWN ∨ vol_state = VolState.UNKNOWN then
    ["regime or vol_state unknown"] else []) ++
  (if (spread_bps.map (fun s => decide (s > max_spread_bps))).getD false then
    ["spread too wide"] else []) ++
  (if adx = none then ["ADX missing"] else [])

/-- The outcome of Step 2 of `decide_regime` (the strategy gates): the
pruned permissions, the strict-entry flag and the gate log lines. -/
structure GateResult where
  allow_trend : Bool
  allow_mean : Bool
  strict_entry : Bool
  gate_logs : List String
deriving DecidableEq, Repr

/-- Step 2 of `decide_regime`: starting from the initial intent
(`allow_trend` for TREND/MIXED, `allow_mean` for RANGE/MIXED), apply the
volatility gate, the ADX strength filter, the timing filter (a strong
trend, ADX > 25, may pull back) and the Bollinger-width opening
protection, logging each pruning. -/
def strategy_gates (base : MarketRegime) (adx_val : ℚ) (vol_state : VolState)
    (adx_slope_state bbw_slope_state : Slope) : GateResult :=
  let allow_trend : Bool := base = MarketRegime.TREND ∨ base = MarketRegime.MIXED
  let allow_mean : Bool := base = MarketRegime.RANGE ∨ base = MarketRegime.MIXED
  let meanGate1 : Bool := vol_state = VolState.HIGH ∧ allow_mean = true
  let allow_mean : Bool := allow_mean ∧ ¬meanGate1
  let strict_entry : Bool :=
    vol_state = VolState.LOW ∧ bbw_slope_state ≠ Slope.UP
  let trendGate1 : Bool := adx_val < 20 ∧ allow_trend = true
  let allow_trend : Bool := allow_trend ∧ ¬trendGate1
  let trendGate2 : Bool :=
    adx_slope_state = Slope.DOWN ∧ allow_trend = true ∧ ¬(adx_val > 25)
  let allow_trend : Bool := allow_trend ∧ ¬trendGate2
  let meanGate2 : Bool := bbw_slope_state = Slope.UP ∧
    (base = MarketRegime.RANGE ∨ base = MarketRegime.MIXED) ∧ allow_mean = true
  let allow_mean : Bool := allow_mean ∧ ¬meanGate2
  let gate_logs : List String :=
    (if meanGate1 then ["gate: high vol disables mean"] else []) ++
    (if vol_state = VolState.LOW then
      if bbw_slope_state ≠ Slope.UP then
        ["gate: low vol -> strict entry (no expansion)"]
      else ["gate: low vol but bbw expanding -> ok"] else []) ++
    (if trendGate1 then ["gate: adx too weak"] else []) ++
    (if trendGate2 then ["gate: adx fading & slope down"] else []) ++
    (if meanGate2 then ["gate: bbw expanding disables mean"] else [])
  ⟨allow_trend, allow_mean, strict_entry, gate_logs⟩

/-- Step 3 of `decide_regime`: the accumulated `soft_reasons` list (thin
book, extreme imbalance, whipsaw risk, missing book). -/
def soft_stop_reasons (base : MarketRegime) (vol_state : VolState)
    (order_book : Option OrderBookInfo) (depth : ℚ) (imbalance : Option ℚ)
    (min_depth imbalance_limit : ℚ) : List String :=
  (if order_book ≠ none ∧ 0 < depth ∧ depth < min_depth then
    ["order book thin"] else []) ++
  (if (imbalance.map (fun i => decide (|i| > imbalance_limit))).getD false then
    ["extreme imbalance"] else []) ++
  (if vol_state = VolState.HIGH ∧
      (base = MarketRegime.RANGE ∨ base = MarketRegime.MIXED) then
    ["high vol + range: whipsaw risk"] else []) ++
  (if order_book = none then ["order book missing"] else [])

/-- Step 4 of `decide_regime`: the `(risk_scale, cooldown_scale)` baseline
by volatility (HIGH → (0.6, 2.0), LOW → (0.8, 1.5), else (1, 1)), then the
×0.75 cut for a fading strong trend and the ×0.7 cut for a strict probe
under LOW volatility. -/
def risk_calc (vol_state : VolState) (adx_slope_state : Slope)
    (allow_trend strict_entry : Bool) (adx_val : ℚ) : ℚ × ℚ :=
  let rc : ℚ × ℚ :=
    if vol_state = VolState.HIGH then (3/5, 2)
    else if vol_state = VolState.LOW then (4/5, 3/2)
    else (1, 1)
  let risk_scale := rc.1
  let cooldown_scale := rc.2
  let risk_scale :=
    if adx_slope_state = Slope.DOWN ∧ allow_trend = true ∧ adx_val > 25 then
      risk_scale * (3/4) else risk_scale
  let risk_scale :=
    if vol_state = VolState.LOW ∧ strict_entry = true then
      risk_scale * (7/10) else risk_scale
  (risk_scale, cooldown_scale)

/-- The `decide_regime` from `src/strategy/regime.py`, translated branch by
branch (hard stop, strategy gates, soft stop, dead-end check, green
light), with each block factored into the helper above.  Python defaults:
`min_depth = 200_000`, `imbalance_limit = 0.8`. -/
def decide_regime (base : MarketRegime) (adx : Option ℚ) (vol_state : VolState)
    (order_book : Option OrderBookInfo) (timing : Option TimingState)
    (max_spread_bps : ℚ) (min_depth : ℚ := 200000)
    (imbalance_limit : ℚ := 4/5) : Decision :=
  let timing := timing.getD {}
  let adx_slope_state := timing.adx_slope.state
  let bbw_slope_state := timing.bbw_slope.state
  let spread_bps : Option ℚ := order_book.map (·.spread_bps)
  let bid_depth : ℚ := (order_book.map (·.bid_depth_value)).getD 0
  let ask_depth : ℚ := (order_book.map (·.ask_depth_value)).getD 0
  let imbalance : Option ℚ := order_book.map (·.imbalance)
  let depth := bid_depth + ask_depth
  -- Step 1) HARD STOP
  if hard_stop_reasons base adx vol_state spread_bps max_spread_bps ≠ [] then
    { action := Action.NO_NEW_ENTRY
      regime := base
      allow_trend := false, allow_mean := false
      allow_new_entry := false, allow_manage := true
      risk_scale := 0, cooldown_scale := 2
      reasons := hard_stop_reasons base adx vol_state spread_bps max_spread_bps
      adx := adx, vol_state := vol_state, order_book := order_book }
  else
    -- Step 2) Strategy Gates
    let adx_val := adx.getD 0
    let g := strategy_gates base adx_val vol_state adx_slope_state bbw_slope_state
    let allow_trend := g.allow_trend
    let allow_mean := g.allow_mean
    let strict_entry := g.strict_entry
    let gate_logs := g.gate_logs
    -- Step 3) SOFT STOP
    let soft_reasons := soft_stop_reasons base vol_state order_book depth
      imbalance min_depth imbalance_limit
    -- Step 4) Risk Calculation
    let rc := risk_calc vol_state adx_slope_state allow_trend strict_entry adx_val
    let risk_scale := rc.1
    let cooldown_scale := rc.2
    if soft_reasons ≠ [] then
      { action := Action.NO_NEW_ENTRY
        regime := base
        strict_entry := strict_entry
        allow_trend := allow_trend, allow_mean := allow_mean
        allow_new_entry := false, allow_manage := true
        risk_scale := risk_scale, cooldown_scale := cooldown_scale
        reasons := soft_reasons ++ gate_logs
        adx := adx, vol_state := vol_state, order_book := order_book }
    else if ¬allow_trend = true ∧ ¬allow_mean = true then
      { action := Action.NO_NEW_ENTRY
        strict_entry := false
        regime := base
        allow_trend := false, allow_mean := false
        allow_new_entry := false, allow_manage := true
        risk_scale := risk_scale, cooldown_scale := cooldown_scale
        reasons := if gate_logs ≠ [] then gate_logs
          else ["logic gap: no strategy fits"]
        adx := adx, vol_state := vol_state, order_book := order_book }
    else
      -- Step 5) GREEN LIGHT
      { action := Action.OK
        regime := base
        strict_entry := strict_entry
        allow_trend := allow_trend
        allow_mean := allow_mean
        allow_new_entry := true
        allow_manage := true
        risk_scale := risk_scale
        cooldown_scale := cooldown_scale
        reasons := ["ok"]
        adx := adx, vol_state := vol_state, order_book := order_book }

/-!  ## `src/strategy/signals.py` — data model and helpers  -/

/-- The `DirectionResult` dataclass from `src/data/models.py`. -/
structure DirectionResult where
  side : Side
  confidence : ℚ
  reasons : List String
deriving DecidableEq, Repr

/-- The `TriggerResult` dataclass from `src/data/models.py`. -/
structure TriggerResult where
  entry_ok : Bool
  entry_price_hint : Option ℚ
  strength : ℚ
  is_breakout : Option Bool
  reasons : List String
deriving DecidableEq, Repr

/-- The `ValidityResult` dataclass from `src/data/models.py`. -/
structure ValidityResult where
  stop_price : Option ℚ
  exit_ok : Bool
  flip_ok : Bool
  quality : ℚ
  reasons : List String
deriving DecidableEq, Repr

/-- The `SignalSnapshot` dataclass from `src/data/models.py`. -/
structure SignalSnapshot where
  side : Side
  entry_ok : Bool
  add_ok : Bool
  exit_ok : Bool
  flip_ok : Bool
  entry_price_hint : Option ℚ
  stop_price : Option ℚ
  score : ℚ
  reasons : List String
  ttl_seconds : ℕ
  created_ts : ℚ
deriving DecidableEq, Repr

/-- One 15-minute bar with the columns `compute_validity_and_risk` reads
(`open` is unused by that function and omitted). -/
structure Bar15 where
  high : ℚ
  low : ℚ
  close : ℚ
  ema_20 : ℚ
  ema_50 : ℚ
  atr_14 : ℚ
deriving DecidableEq, Repr

/-- One 5-minute bar with the columns the adverse-drift filter reads. -/
structure Bar5 where
  close : ℚ
  atr_14 : ℚ
deriving DecidableEq, Repr

/-- The `PerpPosition` from `src/data/models.py`, reduced to the fields the
validity layer reads.  `stop_price` stands for `position_stop_price(position)`;
that helper is not under `src/`.  Modelled from the spec: "Position State
(external, read-only to the core): side, size, entry price, current
protective-stop price (if any)" — the position carries its current
protective-stop price directly. -/
structure PerpPosition where
  szi : Option ℚ
  stop_price : Option ℚ
deriving DecidableEq, Repr

/-- The `PerpPosition.side_enum` property from `src/data/models.py`. -/
def PerpPosition.side_enum (p : PerpPosition) : Side :=
  match p.szi with
  | none => Side.NONE
  | some z => if z = 0 then Side.NONE else if z > 0 then Side.LONG else Side.SHORT

/-- Python `series.iloc[-1]` with the guard that callers only use it on series
known to be non-empty. -/
def iloc1 (l : List ℚ) : ℚ := l.getLast?.getD 0

/-- Python `series.iloc[-2]`. -/
def iloc2 (l : List ℚ) : ℚ := l.dropLast.getLast?.getD 0

/-- Python `series.min()`. -/
def colMin : List ℚ → ℚ
  | [] => 0
  | x :: xs => xs.foldl min x

/-- Python `series.max()`. -/
def colMax : List ℚ → ℚ
  | [] => 0
  | x :: xs => xs.foldl max x

/-- Python `x or default` on an optional float: `None` and `0.0` both fall
back to the default. -/
def pyOr (x : Option ℚ) (dflt : ℚ) : ℚ :=
  match x with
  | none => dflt
  | some v => if v = 0 then dflt else v

/-- Is `pat` a prefix of `s` (character lists)? -/
def begWith : List Char → List Char → Bool
  | [], _ => true
  | _ :: _, [] => false
  | p :: ps, c :: cs => p == c && begWith ps cs

/-- Does `s` contain `pat` as a substring (character lists)? -/
def hasSub (pat : List Char) : List Char → Bool
  | [] => begWith pat []
  | c :: cs => begWith pat (c :: cs) || hasSub pat cs

/-- Python `pat in s` on strings. -/
def strHasSub (s pat : String) : Bool := hasSub pat.toList s.toList

/-!  ## `src/strategy/signals.py` — `compute_validity_and_risk`  -/

/-- The `compute_validity_and_risk` from `src/strategy/signals.py`.

Dataframes are lists of bars (required columns are fields, so the
column-presence checks of the source are foldeded into `Option`-ness of the
whole frame).  The flat branch derives an initial protective stop from ATR
and structure; the in-position branch trails the stop and never loosens an
existing one (`max` with the old stop for longs, `min` for shorts). -/
def compute_validity_and_risk (df_15m : Option (List Bar15))
    (df_5m : Option (List Bar5)) (dir_res : DirectionResult)
    (trg_res : TriggerResult) (regime : Decision)
    (position : Option PerpPosition := none) : ValidityResult :=
  match df_15m with
  | none => ⟨none, false, false, 0, ["15m: insufficient bars"]⟩
  | some df15 =>
  if df15.length < 30 then ⟨none, false, false, 0, ["15m: insufficient bars"]⟩
  else
    let strict := regime.strict_entry
    let close15 := iloc1 (df15.map (·.close))
    let ema20_15 := iloc1 (df15.map (·.ema_20))
    let ema50_15 := iloc1 (df15.map (·.ema_50))
    let atr15 := iloc1 (df15.map (·.atr_14))
    if atr15 ≤ 0 then ⟨none, false, false, 0, ["15m: ATR invalid (<=0)"]⟩
    else
      let has_pos : Bool := match position with
        | none => false
        | some p => match p.szi with
          | none => false
          | some z => |z| > 0
      if ¬has_pos then
        -- A) FLAT
        if ¬trg_res.entry_ok then
          ⟨none, false, false, 0, ["flat: no entry -> skip validity"]⟩
        else if dir_res.side = Side.NONE then
          ⟨none, false, false, 0, ["flat: no direction"]⟩
        else
          let entry_ref := pyOr trg_res.entry_price_hint close15
          let k_atr : ℚ := if strict then 1.25 else 1.55
          let atr_dist := k_atr * atr15
          let is_breakout : Bool := match trg_res.is_breakout with
            | some b => b
            | none =>
              let rs := (String.intercalate " " trg_res.reasons).toLower
              strHasSub rs "breakout" || strHasSub rs "breakdown"
          let swing_low := colMin (takeLast (df15.map (·.low)) 10)
          let swing_high := colMax (takeLast (df15.map (·.high)) 10)
          let stop_price : ℚ :=
            if dir_res.side = Side.LONG then
              let atr_sl := entry_ref - atr_dist
              let struct_sl :=
                if is_breakout then
                  let breakout_level := pyOr trg_res.entry_price_hint entry_ref
                  max (breakout_level - 0.25 * atr15) (ema20_15 - 0.25 * atr15)
                else swing_low - 0.10 * atr15
              max atr_sl struct_sl
            else
              let atr_sl := entry_ref + atr_dist
              let struct_sl :=
                if is_breakout then
                  let breakout_level := pyOr trg_res.entry_price_hint entry_ref
                  min (breakout_level + 0.25 * atr15) (ema20_15 + 0.25 * atr15)
                else swing_high + 0.10 * atr15
              min atr_sl struct_sl
          let quality : ℚ := 0.70
          let quality :=
            match df_5m with
            | some df5 =>
              if df5.length ≥ 6 then
                let closes := takeLast (df5.map (·.close)) 3
                let drift := iloc1 closes - closes.headD 0
                let atr5 := iloc1 (df5.map (·.atr_14))
                if atr5 > 0 then
                  if dir_res.side = Side.LONG ∧ drift < -(0.35) * atr5 then
                    quality - 0.30
                  else if dir_res.side = Side.SHORT ∧ drift > 0.35 * atr5 then
                    quality - 0.30
                  else quality
                else quality
              else quality
            | none => quality
          let reasons : List String :=
            if strict ∧ quality < 0.45 then
              ["strict: quality too low -> veto entry"] else []
          let quality := max 0 (min 1 quality)
          ⟨some stop_price, false, false, quality, reasons⟩
      else
        -- B) IN-POSITION
        let pos := position.getD ⟨none, none⟩
        let pos_side := pos.side_enum
        let k_trail : ℚ := if strict then 1.10 else 1.35
        let trail_dist := k_trail * atr15
        let old_stop := pos.stop_price
        let stop_price : ℚ :=
          if pos_side = Side.LONG then
            let cand1 := ema20_15 - 0.25 * atr15
            let cand2 := close15 - trail_dist
            let new_stop := max cand1 cand2
            match old_stop with
            | some s => max s new_stop
            | none => new_stop
          else
            let cand1 := ema20_15 + 0.25 * atr15
            let cand2 := close15 + trail_dist
            let new_stop := min cand1 cand2
            match old_stop with
            | some s => min s new_stop
            | none => new_stop
        let swing_low := colMin (takeLast (df15.map (·.low)) 10)
        let swing_high := colMax (takeLast (df15.map (·.high)) 10)
        let exit_ok : Bool :=
          if pos_side = Side.LONG then
            close15 < swing_low - 0.05 * atr15 ∨ ema20_15 < ema50_15 ∨
              close15 ≤ stop_price
          else
            close15 > swing_high + 0.05 * atr15 ∨ ema20_15 > ema50_15 ∨
              close15 ≥ stop_price
        let flip_ok : Bool :=
          if strict ∨ regime.allow_flip = true then
            let win_len := min 20 (df15.length - 1)
            let window := takeLast df15.dropLast win_len
            let hh := colMax (window.map (·.high))
            let ll := colMin (window.map (·.low))
            let pad := 0.15 * atr15
            let prev_close := iloc2 (df15.map (·.close))
            if pos_side = Side.LONG then
              exit_ok ∧ ema20_15 ≤ ema50_15 ∧ prev_close > ll - pad ∧
                close15 ≤ ll - pad
            else
              exit_ok ∧ ema20_15 ≥ ema50_15 ∧ prev_close < hh + pad ∧
                close15 ≥ hh + pad
          else false
        let quality : ℚ := 0.65
        let quality :=
          match df_5m with
          | some df5 =>
            if df5.length ≥ 6 then
              let closes := takeLast (df5.map (·.close)) 3
              let drift := iloc1 closes - closes.headD 0
              let atr5 := iloc1 (df5.map (·.atr_14))
              if atr5 > 0 then
                if pos_side = Side.LONG ∧ drift < -(0.40) * atr5 then
                  quality - 0.20
                else if pos_side = Side.SHORT ∧ drift > 0.40 * atr5 then
                  quality - 0.20
                else quality
              else quality
            else quality
          | none => quality
        let quality := max 0 (min 1 quality)
        ⟨some stop_price, exit_ok, flip_ok, quality, []⟩

/-!  ## `src/strategy/signals.py` — scoring and snapshot assembly  -/

/-- The `score_signal` from `src/strategy/signals.py`: Direction (40) +
Trigger (40, only when the trigger fired) + Quality (20), multiplied by
0.70 when the regime disallows trend strategies. -/
def score_signal (dir_res : DirectionResult) (trg_res : TriggerResult)
    (val_res : ValidityResult) (regime : Decision) : ℚ × List String :=
  let score : ℚ := 40 * dir_res.confidence +
    40 * (if trg_res.entry_ok then trg_res.strength else 0) +
    20 * val_res.quality
  let reasons := dir_res.reasons ++ trg_res.reasons ++ val_res.reasons
  let score := if ¬regime.allow_trend then score * 0.70 else score
  let reasons := reasons ++
    (if ¬regime.allow_trend then ["penalty: trend not allowed"] else []) ++
    (if regime.strict_entry then ["strict_entry enabled"] else [])
  (score, reasons)

/-- Tail of `build_signal` from `src/strategy/signals.py`: how the three
layer results are fused into a `SignalSnapshot` (the three `compute_*`
calls that produce the layer results are the callers' side of this
function).  Entry threshold 80 under strict mode, 70 otherwise; entry is
accepted only when the trigger fired, the score reaches the threshold and
the side is not NONE. -/
def build_signal_core (dir_res : DirectionResult) (trg_res : TriggerResult)
    (val_res : ValidityResult) (regime : Decision) (now_ts : ℚ) :
    SignalSnapshot :=
  let sr := score_signal dir_res trg_res val_res regime
  let score := sr.1
  let reasons := sr.2
  let entry_threshold : ℚ := if regime.strict_entry then 80 else 70
  let entry_ok : Bool :=
    trg_res.entry_ok ∧ score ≥ entry_threshold ∧ dir_res.side ≠ Side.NONE
  { side := dir_res.side
    entry_ok := entry_ok
    add_ok := false
    exit_ok := val_res.exit_ok
    flip_ok := val_res.flip_ok
    entry_price_hint := trg_res.entry_price_hint
    stop_price := val_res.stop_price
    score := score
    reasons := reasons
    ttl_seconds := if regime.strict_entry then 45 else 120
    created_ts := now_ts }

/-!  ## `src/strategy/planner.py` — trade-plan assembly

`signal_to_trade_plan` imports four helpers that are not under `src/`
(`find_position`, `position_to_state`, `max_notional_by_equity`,
`estimate_qty_from_notional`, `round_qty_by_decimals`); they are modelled
from the spec below.  -/

/-- The "new version" `TradePlan` dataclass from `src/data/models.py`.
`action` is kept as the raw string literal the planner passes
(`"NONE"`/`"OPEN"`; the dataclass annotation also allows `"CLOSE"` and
`"FLIP"`). -/
structure TradePlan where
  action : String
  symbol : String
  side : Option Side
  qty : ℚ
  entry_type : String
  entry_price : Option ℚ
  stop_price : Option ℚ
  take_profit : Option ℚ
  reduce_only : Bool
  post_only : Bool
  reasons : List String
deriving DecidableEq, Repr

/-- Modelled from the spec: `position_to_state(find_position(account,
symbol))` — the current position's side and size for the traded symbol,
`none` when flat ("Position State (external, read-only to the core):
side, size, …"). -/
structure PositionState where
  side : Side
  size : ℚ
deriving DecidableEq, Repr

/-- Modelled from the spec: `max_notional_by_equity` (not under `src/`) —
"maximum notional = account_equity × leverage × a safety buffer (<1.0)";
the spec's worked example (`equity×leverage×0.95 = 47,500`) fixes the
buffer at 0.95. -/
def max_notional_by_equity (account_value leverage : ℚ) : ℚ :=
  account_value * leverage * 0.95

/-- Modelled from the spec: `estimate_qty_from_notional` (not under
`src/`) — "converting to quantity at the reference price". -/
def estimate_qty_from_notional (notional price : ℚ) : ℚ := notional / price

/-- Modelled from the spec: `round_qty_by_decimals` (not under `src/`) —
"Round down to the asset's quantity-decimal precision". -/
def round_qty_by_decimals (qty : ℚ) (decimals : ℕ) : ℚ :=
  (Int.floor (qty * 10 ^ decimals) : ℚ) / 10 ^ decimals

/-- A `TradePlan("NONE", symbol, None, 0.0, "MARKET", None, None, None,
False, post_only, reasons)` rejection plan, as built on every rejection
path of `signal_to_trade_plan`. -/
def nonePlan (symbol : String) (post_only : Bool) (reasons : List String) :
    TradePlan :=
  ⟨"NONE", symbol, none, 0, "MARKET", none, none, none, false, post_only,
    reasons⟩

/-- The `signal_to_trade_plan` from `src/strategy/planner.py`.

`account_value` stands for `account.state.margin_summary.account_value`;
`position` for `position_to_state(find_position(account, symbol))` (see
above); `size_decimals` for `int(asset.size_decimals or 0)`.  Python
defaults: `slippage = 0.001`, `rr = 1.8`. -/
def signal_to_trade_plan (signal : SignalSnapshot) (regime : Decision)
    (account_value : ℚ) (position : Option PositionState)
    (size_decimals : ℕ) (symbol : String) (risk_pct leverage : ℚ)
    (post_only : Bool) (slippage : ℚ := 0.001) (rr : ℚ := 1.8) : TradePlan :=
  -- 0) no signal / environment forbids
  if ¬signal.entry_ok then
    nonePlan symbol post_only ["signal.entry_ok = False"]
  else if ¬regime.allow_new_entry then
    nonePlan symbol post_only ["regime disallows new entry"]
  else if signal.side = Side.NONE then
    nonePlan symbol post_only ["signal.side = NONE"]
  -- 1) position conflict: no adding, no flipping by default
  else if (position.map
      (fun pos => decide (pos.size > 0 ∧ pos.side = signal.side))).getD false then
    nonePlan symbol post_only ["existing same-side position -> skip"]
  else
    -- 2) risk budget
    let risk_budget := account_value * risk_pct * regime.risk_scale
    match signal.entry_price_hint, signal.stop_price with
    | none, _ => nonePlan symbol post_only ["missing entry_ref or stop_price"]
    | _, none => nonePlan symbol post_only ["missing entry_ref or stop_price"]
    | some entry_ref, some stop =>
      let R := |entry_ref - stop|
      if R ≤ 0 then nonePlan symbol post_only ["invalid R (entry-stop <= 0)"]
      else
        -- 3) qty from risk
        let raw_qty := risk_budget / R
        -- 4) notional ceiling
        let max_notional := max_notional_by_equity account_value leverage
        let max_qty_by_notional := estimate_qty_from_notional max_notional entry_ref
        let qty := min raw_qty max_qty_by_notional
        -- 5) quantity precision
        let qty := round_qty_by_decimals qty size_decimals
        if qty ≤ 0 then
          nonePlan symbol post_only ["qty too small after rounding"]
        else
          -- 6) order type by score
          let ep : String × Option ℚ :=
            if signal.score ≥ 90 then ("MARKET", none)
            else ("LIMIT", some (if signal.side = Side.LONG then
              entry_ref * (1 - slippage) else entry_ref * (1 + slippage)))
          -- 7) take-profit by RR
          let tp := if signal.side = Side.LONG then entry_ref + rr * R
            else entry_ref - rr * R
          { action := "OPEN"
            symbol := symbol
            side := some signal.side
            qty := qty
            entry_type := ep.1
            entry_price := ep.2
            stop_price := some stop
            take_profit := some tp
            reduce_only := false
            post_only := post_only
            reasons := signal.reasons }

/-!  # Theorems  -/

/-- Helper: any of the four hard-stop conditions makes the accumulated
`hard_reasons` list non-empty. -/
theorem hard_stop_reasons_ne_nil (base : MarketRegime) (adx : Option ℚ)
    (vol : VolState) (spread : Option ℚ) (msb : ℚ)
    (h : base = MarketRegime.UNKNOWN ∨ vol = VolState.UNKNOWN ∨ adx = none ∨
      (∃ s, spread = some s ∧ s > msb)) :
    hard_stop_reasons base adx vol spread msb ≠ [] := by
  unfold hard_stop_reasons
  rcases h with h | h | h | ⟨s, hs, hgt⟩
  · simp [h]
  · simp [h]
  · simp [h]
  · simp [hs, hgt]

/-- C10: every Decision produced by `decide_regime` has `allow_manage`
true, has `allow_new_entry` true exactly when the action is OK, and its
action is never STOP_ALL (only NO_NEW_ENTRY or OK are produced, the
hard-stop branch included). -/
theorem decide_regime_action_invariant (base : MarketRegime) (adx : Option ℚ)
    (vol : VolState) (ob : Option OrderBookInfo) (timing : Option TimingState)
    (msb md il : ℚ) :
    (decide_regime base adx vol ob timing msb md il).allow_manage = true ∧
    ((decide_regime base adx vol ob timing msb md il).allow_new_entry = true ↔
      (decide_regime base adx vol ob timing msb md il).action = Action.OK) ∧
    (decide_regime base adx vol ob timing msb md il).action ≠ Action.STOP_ALL := by
  unfold decide_regime
  dsimp only
  repeat' split
  all_goals exact ⟨rfl, by simp, by simp⟩

/-- C1 (counterexample): at a hard-stop input (everything UNKNOWN and
missing) the action is `NO_NEW_ENTRY`, not `STOP_ALL` as claimed. -/
theorem hard_stop_action_cex :
    (decide_regime MarketRegime.UNKNOWN none VolState.UNKNOWN none none
      12).action = Action.NO_NEW_ENTRY ∧
    Action.NO_NEW_ENTRY ≠ Action.STOP_ALL := by
  constructor
  · rfl
  · decide

/-- C1 (amended): whenever the Regime or Volatility label is UNKNOWN, or
the trend-strength (ADX) value is missing, or the order-book spread
exceeds the maximum-allowed-spread threshold, `decide_regime` returns the
hard-stop Decision: action = NO_NEW_ENTRY (the `Action.STOP_ALL` value is
never used), `allow_new_entry` = false, `allow_manage` = true,
`risk_scale` = 0 and `cooldown_scale` = 2.0, regardless of every other
input. -/
theorem hard_stop_fields (base : MarketRegime) (adx : Option ℚ)
    (vol : VolState) (ob : Option OrderBookInfo) (timing : Option TimingState)
    (msb md il : ℚ)
    (h : base = MarketRegime.UNKNOWN ∨ vol = VolState.UNKNOWN ∨ adx = none ∨
      (∃ o, ob = some o ∧ o.spread_bps > msb)) :
    (decide_regime base adx vol ob timing msb md il).action =
      Action.NO_NEW_ENTRY ∧
    (decide_regime base adx vol ob timing msb md il).allow_new_entry = false ∧
    (decide_regime base adx vol ob timing msb md il).allow_manage = true ∧
    (decide_regime base adx vol ob timing msb md il).risk_scale = 0 ∧
    (decide_regime base adx vol ob timing msb md il).cooldown_scale = 2 := by
  have hne : hard_stop_reasons base adx vol (ob.map (·.spread_bps)) msb ≠ [] := by
    apply hard_stop_reasons_ne_nil
    rcases h with h | h | h | ⟨o, ho, hgt⟩
    · exact Or.inl h
    · exact Or.inr (Or.inl h)
    · exact Or.inr (Or.inr (Or.inl h))
    · exact Or.inr (Or.inr (Or.inr ⟨o.spread_bps, by simp [ho], hgt⟩))
  unfold decide_regime
  dsimp only
  rw [if_pos hne]
  exact ⟨rfl, rfl, rfl, rfl, rfl⟩

/-- C1 (witness for the amended theorem). -/
theorem hard_stop_fields_witness :
    (decide_regime MarketRegime.UNKNOWN none VolState.UNKNOWN none none
      12).action = Action.NO_NEW_ENTRY ∧
    (decide_regime MarketRegime.UNKNOWN none VolState.UNKNOWN none none
      12).risk_scale = 0 := by
  have h := hard_stop_fields MarketRegime.UNKNOWN none VolState.UNKNOWN none
    none 12 200000 (4/5) (Or.inl rfl)
  exact ⟨h.1, h.2.2.2.1⟩

/-- C2: with at least 50 non-missing trend-strength samples and previous
label TREND, `classify_trend_range` returns TREND exactly when the latest
strength is ≥ 23 and MIXED exactly when it is < 23 — and in particular it
never returns RANGE in one step. -/
theorem trend_hysteresis (col : Col) (v : ℚ)
    (hlen : 50 ≤ (dropna col).length)
    (hlast : (dropna col).getLast? = some v) :
    (classify_trend_range (some col) MarketRegime.TREND).1 ≠
      MarketRegime.RANGE ∧
    ((classify_trend_range (some col) MarketRegime.TREND).1 =
      MarketRegime.TREND ↔ 23 ≤ v) ∧
    ((classify_trend_range (some col) MarketRegime.TREND).1 =
      MarketRegime.MIXED ↔ v < 23) := by
  unfold classify_trend_range
  simp only [ilocLast, hlast,
    if_neg (show ¬((dropna col).length < 50) by omega)]
  by_cases hv : v < 23
  · simp [hv, not_le.mpr hv]
  · simp [hv, not_lt.mp hv]

/-- C2 (witness). -/
theorem trend_hysteresis_witness :
    (classify_trend_range (some (List.replicate 50 (some 24)))
      MarketRegime.TREND).1 = MarketRegime.TREND := by
  have h := trend_hysteresis (List.replicate 50 (some 24)) 24
    (by decide) (by decide)
  exact h.2.1.2 (by norm_num)

/-- C3: with at least 200 non-missing samples in both volatility columns,
`classify_vol_state` returns the common label with "high" confidence when
the two independent percentile views agree, and NORMAL with "low"
confidence — never LOW, never HIGH — when they disagree in any way. -/
theorem vol_consensus (natr bbw : Col)
    (hn : 200 ≤ (dropna natr).length) (hb : 200 ≤ (dropna bbw).length) :
    (vol_view_state (dropna natr) = vol_view_state (dropna bbw) →
      classify_vol_state (some (natr, bbw)) =
        (vol_view_state (dropna natr),
          some ⟨"high", vol_view_state (dropna natr),
            vol_view_state (dropna bbw)⟩)) ∧
    (vol_view_state (dropna natr) ≠ vol_view_state (dropna bbw) →
      classify_vol_state (some (natr, bbw)) =
        (VolState.NORMAL,
          some ⟨"low", vol_view_state (dropna natr),
            vol_view_state (dropna bbw)⟩) ∧
      (classify_vol_state (some (natr, bbw))).1 ≠ VolState.LOW ∧
      (classify_vol_state (some (natr, bbw))).1 ≠ VolState.HIGH) := by
  unfold classify_vol_state
  dsimp only
  rw [if_neg (by push_neg; exact ⟨by omega, by omega⟩)]
  constructor
  · intro heq
    rw [if_pos heq]
  · intro hne
    rw [if_neg hne]
    exact ⟨rfl, by simp, by simp⟩

/-- Helper: `dropna` over an all-present constant column. -/
theorem dropna_replicate_some (n : ℕ) (x : ℚ) :
    dropna (List.replicate n (some x)) = List.replicate n x := by
  induction n with
  | zero => rfl
  | succ n ih =>
    rw [List.replicate_succ, List.replicate_succ]
    simp only [dropna, List.filterMap_cons] at ih ⊢
    simp [ih]

/-- Helper: inserting `x` into a constant run of `x` keeps it constant. -/
theorem insertSorted_replicate_self (n : ℕ) (x : ℚ) :
    insertSorted x (List.replicate n x) = List.replicate (n + 1) x := by
  cases n with
  | zero => rfl
  | succ n =>
    rw [List.replicate_succ, insertSorted, if_pos le_rfl]
    simp [List.replicate_succ]

/-- Helper: a constant list is already sorted. -/
theorem sortQ_replicate (n : ℕ) (x : ℚ) :
    sortQ (List.replicate n x) = List.replicate n x := by
  induction n with
  | zero => rfl
  | succ n ih =>
    rw [List.replicate_succ, sortQ, ih, insertSorted_replicate_self]
    exact (List.replicate_succ x n).symm

/-- Helper: the last element of a non-empty constant list. -/
theorem getLast?_replicate_succ (n : ℕ) (x : ℚ) :
    (List.replicate (n + 1) x).getLast? = some x := by
  induction n with
  | zero => rfl
  | succ n ih =>
    rw [List.replicate_succ, List.replicate_succ, List.getLast?_cons_cons,
      ← List.replicate_succ, ih]

/-- Helper: indexing a constant list with the same default always yields
the constant, in or out of range. -/
theorem getD_replicate_any (n i : ℕ) (x : ℚ) :
    (List.replicate n x).getD i x = x := by
  rw [List.getD_eq_getElem?_getD, List.getElem?_replicate]
  split <;> rfl

/-- Helper: any percentile of a constant sample is the constant. -/
theorem quantile_replicate (n : ℕ) (x q : ℚ) :
    quantile (List.replicate (n + 1) x) q = x := by
  unfold quantile
  rw [sortQ_replicate]
  rw [show List.replicate (n + 1) x = x :: List.replicate n x from
    List.replicate_succ x n]
  dsimp only
  rw [show x :: List.replicate n x = List.replicate (n + 1) x from
    (List.replicate_succ x n).symm]
  rw [getD_replicate_any, getD_replicate_any]
  ring

/-- Helper: one percentile view over a constant window classifies LOW
(the current value equals every percentile). -/
theorem vol_view_state_replicate :
    vol_view_state (List.replicate 200 (1 : ℚ)) = VolState.LOW := by
  unfold vol_view_state takeLast
  rw [List.length_replicate]
  norm_num
  rw [ilocLast, getLast?_replicate_succ 199 1]
  rw [show (200 : ℕ) = 199 + 1 from rfl, quantile_replicate, quantile_replicate]
  unfold q_state
  simp

/-- C3 (witness). -/
theorem vol_consensus_witness :
    classify_vol_state
        (some (List.replicate 200 (some 1), List.replicate 200 (some 1))) =
      (VolState.LOW, some ⟨"high", VolState.LOW, VolState.LOW⟩) := by
  have h := (vol_consensus (List.replicate 200 (some 1))
    (List.replicate 200 (some 1))
    (by rw [dropna_replicate_some, List.length_replicate])
    (by rw [dropna_replicate_some, List.length_replicate])).1 rfl
  rw [h, dropna_replicate_some, vol_view_state_replicate]

/-- C9: with previous label MIXED and 50+ samples ending at trend-strength
30, the Regime Classifier returns TREND; feeding that into the Policy Gate
with Volatility HIGH, an order book with spread 5 bps against a 12 bps
maximum, adequate depth and moderate imbalance, and no adverse slope
states, yields action = OK, allow_mean = false and risk_scale = 0.6. -/
theorem trend30_high_vol_decision (col : Col) (ob : OrderBookInfo)
    (tm : TimingState)
    (hlen : 50 ≤ (dropna col).length)
    (hlast : (dropna col).getLast? = some 30)
    (hspread : ob.spread_bps = 5)
    (hdepth : 200000 ≤ ob.bid_depth_value + ob.ask_depth_value)
    (himb : |ob.imbalance| ≤ 4/5)
    (hslope : tm.adx_slope.state ≠ Slope.DOWN) :
    classify_trend_range (some col) MarketRegime.MIXED =
      (MarketRegime.TREND, some 30) ∧
    (decide_regime MarketRegime.TREND (some 30) VolState.HIGH (some ob)
      (some tm) 12).action = Action.OK ∧
    (decide_regime MarketRegime.TREND (some 30) VolState.HIGH (some ob)
      (some tm) 12).allow_mean = false ∧
    (decide_regime MarketRegime.TREND (some 30) VolState.HIGH (some ob)
      (some tm) 12).risk_scale = 3/5 := by
  constructor
  · unfold classify_trend_range
    simp only [ilocLast, hlast,
      if_neg (show ¬((dropna col).length < 50) by omega)]
    rw [if_neg (by decide), if_neg (by decide), if_pos (by norm_num)]
  · have hg : ∀ s1 s2 : Slope, strategy_gates MarketRegime.TREND 30
        VolState.HIGH s1 s2 = ⟨true, false, false, []⟩ := by
      intro s1 s2
      cases s1 <;> cases s2 <;> decide
    have hr : risk_calc VolState.HIGH tm.adx_slope.state true false 30 =
        (3/5, 2) := by
      cases h : tm.adx_slope.state
      · norm_num [risk_calc]; decide
      · exact absurd h hslope
      · norm_num [risk_calc]; decide
      · norm_num [risk_calc]; decide
    have hhard : hard_stop_reasons MarketRegime.TREND (some 30) VolState.HIGH
        (some ob.spread_bps) 12 = [] := by
      simp [hard_stop_reasons, hspread]
      norm_num
    have hsoft : soft_stop_reasons MarketRegime.TREND VolState.HIGH (some ob)
        (ob.bid_depth_value + ob.ask_depth_value) (some ob.imbalance)
        200000 (4/5) = [] := by
      simp [soft_stop_reasons, not_lt.mpr hdepth, not_lt.mpr himb]
    unfold decide_regime
    simp only [Option.map_some', Option.getD_some]
    rw [if_neg (by simp [hhard])]
    rw [if_neg (by simp [hsoft])]
    rw [if_neg (by simp [hg])]
    simp [hg, hr]

/-- C9 (witness). -/
theorem trend30_high_vol_decision_witness :
    classify_trend_range (some (List.replicate 50 (some 30)))
      MarketRegime.MIXED = (MarketRegime.TREND, some 30) ∧
    (decide_regime MarketRegime.TREND (some 30) VolState.HIGH
      (some ⟨100, 100, 100, 5, 150000, 150000, 1/10⟩) (some {}) 12).action =
      Action.OK ∧
    (decide_regime MarketRegime.TREND (some 30) VolState.HIGH
      (some ⟨100, 100, 100, 5, 150000, 150000, 1/10⟩) (some {}) 12).risk_scale =
      3/5 := by
  have h := trend30_high_vol_decision (List.replicate 50 (some 30))
    ⟨100, 100, 100, 5, 150000, 150000, 1/10⟩ {}
    (by rw [dropna_replicate_some, List.length_replicate])
    (by rw [dropna_replicate_some]; exact getLast?_replicate_succ 49 30)
    rfl (by norm_num)
    (by rw [show |(1:ℚ)/10| = 1/10 from abs_of_nonneg (by norm_num)]; norm_num)
    (by decide)
  exact ⟨h.1, h.2.1, h.2.2.2⟩

/-- A concrete green-light Decision used as an example input below. -/
def exampleDecision : Decision :=
  { action := Action.OK
    regime := MarketRegime.TREND
    allow_trend := true
    allow_mean := false }

/-- The spec's worked example layer results: LONG with confidence 0.7, a
fired non-breakout trigger of strength 0.6 hinting entry at 100, and a
validity result of quality 0.8 with stop 98. -/
def exampleDir : DirectionResult := ⟨Side.LONG, 7/10, []⟩

/-- Example trigger result (see `exampleDir`). -/
def exampleTrg : TriggerResult := ⟨true, some 100, 3/5, some false, []⟩

/-- Example validity result (see `exampleDir`). -/
def exampleVal : ValidityResult := ⟨some 98, false, false, 4/5, []⟩

/-- C4 (counterexample): in the spec's worked example the composite score
is 68, entry is refused, and the resulting Trade Plan's action is the
planner's rejection value "NONE" — not "HOLD" as the claim states. -/
theorem score_example_plan_cex :
    (score_signal exampleDir exampleTrg exampleVal exampleDecision).1 = 68 ∧
    (build_signal_core exampleDir exampleTrg exampleVal exampleDecision
      0).entry_ok = false ∧
    (signal_to_trade_plan
      (build_signal_core exampleDir exampleTrg exampleVal exampleDecision 0)
      exampleDecision 10000 none 3 "SYM" (1/100) 5 false).action = "NONE" ∧
    "NONE" ≠ "HOLD" := by
  have hscore :
      (score_signal exampleDir exampleTrg exampleVal exampleDecision).1 = 68 := by
    norm_num [score_signal, exampleDir, exampleTrg, exampleVal, exampleDecision]
  have hentry :
      (build_signal_core exampleDir exampleTrg exampleVal exampleDecision
        0).entry_ok = false := by
    simp only [build_signal_core, decide_eq_false_iff_not]
    intro hcon
    have hge := hcon.2.1
    rw [hscore] at hge
    simp only [show exampleDecision.strict_entry = false from rfl] at hge
    norm_num at hge
  refine ⟨hscore, hentry, ?_, by decide⟩
  unfold signal_to_trade_plan
  rw [if_pos (by rw [hentry]; decide)]
  rfl

/-- C4 (amended): the composite score is
40·confidence + 40·(strength if the trigger fired else 0) + 20·quality,
multiplied by 0.70 when the Decision disallows trend strategies; entry is
accepted exactly when the trigger fired, the score reaches the threshold
(80 strict, 70 otherwise) and the side is not NONE.  In the spec's worked
example the score is 68 < 70, entry is refused, and the resulting Trade
Plan is the rejection plan with action "NONE" (the planner never produces
a "HOLD" action value). -/
theorem composite_score_entry :
    (∀ (d : DirectionResult) (t : TriggerResult) (v : ValidityResult)
      (r : Decision),
      (score_signal d t v r).1 =
        (40 * d.confidence + 40 * (if t.entry_ok then t.strength else 0) +
          20 * v.quality) * (if r.allow_trend then 1 else 7/10)) ∧
    (∀ (d : DirectionResult) (t : TriggerResult) (v : ValidityResult)
      (r : Decision) (now : ℚ),
      (build_signal_core d t v r now).entry_ok = true ↔
        (t.entry_ok = true ∧
          (score_signal d t v r).1 ≥ (if r.strict_entry then 80 else 70) ∧
          d.side ≠ Side.NONE)) ∧
    ((score_signal exampleDir exampleTrg exampleVal exampleDecision).1 = 68 ∧
      (build_signal_core exampleDir exampleTrg exampleVal exampleDecision
        0).entry_ok = false ∧
      (signal_to_trade_plan
        (build_signal_core exampleDir exampleTrg exampleVal exampleDecision 0)
        exampleDecision 10000 none 3 "SYM" (1/100) 5 false).action = "NONE") := by
  refine ⟨?_, ?_, ?_⟩
  · intro d t v r
    cases hr : r.allow_trend
    · simp [score_signal, hr]
      ring_nf
      norm_num
    · simp [score_signal, hr]
  · intro d t v r now
    simp [build_signal_core, and_assoc]
  · have hscore :
        (score_signal exampleDir exampleTrg exampleVal exampleDecision).1 = 68 := by
      norm_num [score_signal, exampleDir, exampleTrg, exampleVal, exampleDecision]
    have hentry :
        (build_signal_core exampleDir exampleTrg exampleVal exampleDecision
          0).entry_ok = false := by
      simp only [build_signal_core, decide_eq_false_iff_not]
      intro hcon
      have hge := hcon.2.1
      rw [hscore] at hge
      simp only [show exampleDecision.strict_entry = false from rfl] at hge
      norm_num at hge
    refine ⟨hscore, hentry, ?_⟩
    unfold signal_to_trade_plan
    rw [if_pos (by rw [hentry]; decide)]
    rfl

/-- C5: on an in-position evaluation with a known old protective stop, the
stop price returned by `compute_validity_and_risk` is never below the old
stop for a long position (the old and recomputed stops are combined with
`max`) and never above it for a short position (combined with `min`). -/
theorem trailing_stop_monotone (df15 : List Bar15) (df5 : Option (List Bar5))
    (d : DirectionResult) (t : TriggerResult) (r : Decision) (z s : ℚ)
    (hlen : 30 ≤ df15.length)
    (hatr : 0 < iloc1 (df15.map (·.atr_14)))
    (hz : z ≠ 0) :
    (0 < z → ∃ tq, (compute_validity_and_risk (some df15) df5 d t r
      (some ⟨some z, some s⟩)).stop_price = some tq ∧ s ≤ tq) ∧
    (z < 0 → ∃ tq, (compute_validity_and_risk (some df15) df5 d t r
      (some ⟨some z, some s⟩)).stop_price = some tq ∧ tq ≤ s) := by
  unfold compute_validity_and_risk
  dsimp only
  rw [if_neg (by omega), if_neg (not_le.mpr hatr),
    if_neg (show ¬(¬(decide (|z| > 0)) = true) by simp [abs_pos, hz])]
  simp only [Option.getD_some]
  constructor
  · intro hzpos
    rw [if_pos (show ({ szi := some z, stop_price := some s } :
      PerpPosition).side_enum = Side.LONG by
        simp [PerpPosition.side_enum, hz, hzpos])]
    exact ⟨_, rfl, le_max_left _ _⟩
  · intro hzneg
    rw [if_neg (show ¬({ szi := some z, stop_price := some s } :
      PerpPosition).side_enum = Side.LONG by
        simp [PerpPosition.side_enum, hz, not_lt.mpr hzneg.le])]
    exact ⟨_, rfl, min_le_left _ _⟩

/-- C5 (witness). -/
theorem trailing_stop_monotone_witness :
    ∃ tq, (compute_validity_and_risk
      (some (List.replicate 30 ⟨10, 5, 7, 7, 6, 1⟩)) none ⟨Side.LONG, 1, []⟩
      ⟨false, none, 0, none, []⟩ exampleDecision
      (some ⟨some 1, some 100⟩)).stop_price = some tq ∧ 100 ≤ tq := by
  exact (trailing_stop_monotone (List.replicate 30 ⟨10, 5, 7, 7, 6, 1⟩) none
    ⟨Side.LONG, 1, []⟩ ⟨false, none, 0, none, []⟩ exampleDecision 1 100
    (by rw [List.length_replicate])
    (by
      rw [List.map_replicate]
      unfold iloc1
      rw [show (30 : ℕ) = 29 + 1 from rfl, getLast?_replicate_succ]
      norm_num)
    one_ne_zero).1 one_pos

/-- C6: when the planner reaches sizing (signal accepted, entry permitted,
no same-side position, prices present, positive stop distance, positive
rounded quantity), the plan's quantity is exactly the risk budget
`account_equity × risk_pct × risk_scale` divided by the entry-to-stop
distance, capped at the notional-ceiling quantity, rounded down to the
asset's quantity decimals — and the plan opens a position. -/
theorem position_sizer_qty (signal : SignalSnapshot) (regime : Decision)
    (account_value : ℚ) (position : Option PositionState) (size_decimals : ℕ)
    (symbol : String) (risk_pct leverage : ℚ) (post_only : Bool)
    (slippage rr : ℚ) (e s : ℚ)
    (hok : signal.entry_ok = true) (hallow : regime.allow_new_entry = true)
    (hside : signal.side ≠ Side.NONE)
    (hcon : (position.map (fun pos =>
      decide (pos.size > 0 ∧ pos.side = signal.side))).getD false = false)
    (he : signal.entry_price_hint = some e) (hs : signal.stop_price = some s)
    (hR : 0 < |e - s|)
    (hqty : 0 < round_qty_by_decimals
      (min (account_value * risk_pct * regime.risk_scale / |e - s|)
        (estimate_qty_from_notional
          (max_notional_by_equity account_value leverage) e)) size_decimals) :
    (signal_to_trade_plan signal regime account_value position size_decimals
      symbol risk_pct leverage post_only slippage rr).qty =
      round_qty_by_decimals
        (min (account_value * risk_pct * regime.risk_scale / |e - s|)
          (estimate_qty_from_notional
            (max_notional_by_equity account_value leverage) e)) size_decimals ∧
    (signal_to_trade_plan signal regime account_value position size_decimals
      symbol risk_pct leverage post_only slippage rr).action = "OPEN" := by
  unfold signal_to_trade_plan
  rw [if_neg (by simp [hok]), if_neg (by simp [hallow]), if_neg hside,
    if_neg (by rw [hcon]; exact Bool.false_ne_true)]
  rw [he, hs]
  dsimp only
  rw [if_neg (not_le.mpr hR), if_neg (not_le.mpr hqty)]
  exact ⟨rfl, rfl⟩

/-- C6 (witness): the spec's example — equity 10 000, risk 1 %, scale 1,
entry 100, stop 98, leverage 5, buffer 0.95 — sizes exactly 50. -/
theorem position_sizer_qty_witness :
    (signal_to_trade_plan
      ⟨Side.LONG, true, false, false, false, some 100, some 98, 85, [], 120, 0⟩
      exampleDecision 10000 none 3 "SYM" (1/100) 5 false (1/1000) (9/5)).qty =
      50 ∧
    (signal_to_trade_plan
      ⟨Side.LONG, true, false, false, false, some 100, some 98, 85, [], 120, 0⟩
      exampleDecision 10000 none 3 "SYM" (1/100) 5 false (1/1000) (9/5)).action =
      "OPEN" := by
  have h := position_sizer_qty
    ⟨Side.LONG, true, false, false, false, some 100, some 98, 85, [], 120, 0⟩
    exampleDecision 10000 none 3 "SYM" (1/100) 5 false (1/1000) (9/5) 100 98
    rfl rfl (by decide) rfl rfl rfl (by norm_num)
    (by norm_num [round_qty_by_decimals, max_notional_by_equity,
      estimate_qty_from_notional, exampleDecision])
  refine ⟨?_, h.2⟩
  rw [h.1]
  norm_num [round_qty_by_decimals, max_notional_by_equity,
    estimate_qty_from_notional, exampleDecision]

/-- C7: whenever the entry-to-stop distance is non-positive, or the
capped quantity rounds to zero at the asset's precision,
`signal_to_trade_plan` returns a rejection plan — action "NONE", quantity
0, with a non-empty reason list — rather than raising. -/
theorem sizer_rejects_no_size (signal : SignalSnapshot) (regime : Decision)
    (account_value : ℚ) (position : Option PositionState) (size_decimals : ℕ)
    (symbol : String) (risk_pct leverage : ℚ) (post_only : Bool)
    (slippage rr : ℚ) (e s : ℚ)
    (he : signal.entry_price_hint = some e) (hs : signal.stop_price = some s)
    (h : |e - s| ≤ 0 ∨ round_qty_by_decimals
      (min (account_value * risk_pct * regime.risk_scale / |e - s|)
        (estimate_qty_from_notional
          (max_notional_by_equity account_value leverage) e)) size_decimals = 0) :
    (signal_to_trade_plan signal regime account_value position size_decimals
      symbol risk_pct leverage post_only slippage rr).action = "NONE" ∧
    (signal_to_trade_plan signal regime account_value position size_decimals
      symbol risk_pct leverage post_only slippage rr).qty = 0 ∧
    (signal_to_trade_plan signal regime account_value position size_decimals
      symbol risk_pct leverage post_only slippage rr).reasons ≠ [] := by
  unfold signal_to_trade_plan
  repeat' split
  all_goals try exact ⟨rfl, rfl, by simp [nonePlan]⟩
  all_goals simp_all
  all_goals
    rcases h with h | h
    case inl =>
      rw [if_pos h]
      exact ⟨rfl, rfl, by simp [nonePlan]⟩
    case inr =>
      by_cases h1 : e - s = 0
      · rw [if_pos h1]
        exact ⟨rfl, rfl, by simp [nonePlan]⟩
      · rw [if_neg h1, if_pos h.le]
        exact ⟨rfl, rfl, by simp [nonePlan]⟩

/-- C7 (witness): entry price equal to stop price (distance 0) is
rejected with quantity 0. -/
theorem sizer_rejects_no_size_witness :
    (signal_to_trade_plan
      ⟨Side.LONG, true, false, false, false, some 100, some 100, 85, [], 120, 0⟩
      exampleDecision 10000 none 3 "SYM" (1/100) 5 false (1/1000) (9/5)).action =
      "NONE" ∧
    (signal_to_trade_plan
      ⟨Side.LONG, true, false, false, false, some 100, some 100, 85, [], 120, 0⟩
      exampleDecision 10000 none 3 "SYM" (1/100) 5 false (1/1000) (9/5)).qty =
      0 := by
  have h := sizer_rejects_no_size
    ⟨Side.LONG, true, false, false, false, some 100, some 100, 85, [], 120, 0⟩
    exampleDecision 10000 none 3 "SYM" (1/100) 5 false (1/1000) (9/5) 100 100
    rfl rfl (Or.inl (by norm_num))
  exact ⟨h.1, h.2.1⟩

/-- C8 (counterexample): with an open SHORT position and an accepted LONG
signal, the planner emits an "OPEN" plan, not the "FLIP" plan the claim
describes (no closing leg is produced). -/
theorem opposite_position_flip_cex :
    (signal_to_trade_plan
      ⟨Side.LONG, true, false, false, false, some 100, some 98, 85, [], 120, 0⟩
      exampleDecision 10000 (some ⟨Side.SHORT, 1⟩) 3 "SYM" (1/100) 5 false
      (1/1000) (9/5)).action = "OPEN" ∧ ("OPEN" : String) ≠ "FLIP" := by
  constructor
  · unfold signal_to_trade_plan
    rw [if_neg (by decide), if_neg (by decide), if_neg (by decide),
      if_neg (by decide)]
    dsimp only
    rw [if_neg (by norm_num), if_neg (by norm_num [round_qty_by_decimals,
      max_notional_by_equity, estimate_qty_from_notional, exampleDecision])]
  · decide

/-- C8 (amended): when the current position's side differs from the new
signal's side and the signal carries a valid accepted trigger, the
planner ignores the existing position and emits a plain OPEN plan for the
new side, with no closing leg (`reduce_only` = false); the planner never
emits a FLIP plan for any input. -/
theorem opposite_position_opens (signal : SignalSnapshot) (regime : Decision)
    (account_value : ℚ) (pos : PositionState) (size_decimals : ℕ)
    (symbol : String) (risk_pct leverage : ℚ) (post_only : Bool)
    (slippage rr : ℚ) (e s : ℚ)
    (hok : signal.entry_ok = true) (hallow : regime.allow_new_entry = true)
    (hside : signal.side ≠ Side.NONE) (hside2 : pos.side ≠ signal.side)
    (he : signal.entry_price_hint = some e) (hs : signal.stop_price = some s)
    (hR : 0 < |e - s|)
    (hqty : 0 < round_qty_by_decimals
      (min (account_value * risk_pct * regime.risk_scale / |e - s|)
        (estimate_qty_from_notional
          (max_notional_by_equity account_value leverage) e)) size_decimals) :
    (signal_to_trade_plan signal regime account_value (some pos) size_decimals
      symbol risk_pct leverage post_only slippage rr).action = "OPEN" ∧
    (signal_to_trade_plan signal regime account_value (some pos) size_decimals
      symbol risk_pct leverage post_only slippage rr).side = some signal.side ∧
    (signal_to_trade_plan signal regime account_value (some pos) size_decimals
      symbol risk_pct leverage post_only slippage rr).reduce_only = false ∧
    (∀ (sig : SignalSnapshot) (reg : Decision) (av : ℚ)
      (p : Option PositionState) (sd : ℕ) (sym : String) (rp lev : ℚ)
      (po : Bool) (sl rr2 : ℚ),
      (signal_to_trade_plan sig reg av p sd sym rp lev po sl rr2).action ≠
        "FLIP") := by
  refine ⟨?_, ?_, ?_, ?_⟩ <;>
    try (
      unfold signal_to_trade_plan
      rw [if_neg (by simp [hok]), if_neg (by simp [hallow]), if_neg hside,
        if_neg (by simp [hside2])]
      rw [he, hs]
      dsimp only
      rw [if_neg (not_le.mpr hR), if_neg (not_le.mpr hqty)])
  intro sig reg av p sd sym rp lev po sl rr2
  unfold signal_to_trade_plan
  repeat' split
  all_goals intro hcon
  all_goals simp [nonePlan, apply_ite TradePlan.action, ite_eq_iff] at hcon

/-- C8 (witness for the amended theorem). -/
theorem opposite_position_opens_witness :
    (signal_to_trade_plan
      ⟨Side.LONG, true, false, false, false, some 100, some 98, 85, [], 120, 0⟩
      exampleDecision 10000 (some ⟨Side.SHORT, 1⟩) 3 "SYM" (1/100) 5 false
      (1/1000) (9/5)).action = "OPEN" ∧
    (signal_to_trade_plan
      ⟨Side.LONG, true, false, false, false, some 100, some 98, 85, [], 120, 0⟩
      exampleDecision 10000 (some ⟨Side.SHORT, 1⟩) 3 "SYM" (1/100) 5 false
      (1/1000) (9/5)).side = some Side.LONG := by
  have h := opposite_position_opens
    ⟨Side.LONG, true, false, false, false, some 100, some 98, 85, [], 120, 0⟩
    exampleDecision 10000 ⟨Side.SHORT, 1⟩ 3 "SYM" (1/100) 5 false (1/1000)
    (9/5) 100 98 rfl rfl (by decide) (by decide) rfl rfl (by norm_num)
    (by norm_num [round_qty_by_decimals, max_notional_by_equity,
      estimate_qty_from_notional, exampleDecision])
  exact ⟨h.1, h.2.1⟩

end Quant
